import Mathlib

/-!
Verification of the borg_systemd repository: a pair of Python wrappers
(`borg_systemd/__main__.py` and `borg_slurm/__main__.py`) that orchestrate a
backup run: load a tab-delimited config into the process environment, optionally
probe the SLURM queue for a running job, invoke borg create / prune / list as
subprocesses, and mail the captured output to the operator.

The embedding below translates the Python source into pure Lean definitions.
Subprocess execution and the clock are modelled by a `World` record that supplies
the outcome of each external call; `main` then computes the trace of events
(subprocess invocations and mail notifications) and the final process result.
Logging calls (`logging.*`, `config_log`) are side-effect-only plumbing and are
not modelled.
-/

/-- Byte strings (Python `bytes`) as lists of byte values. -/
abbrev Bytes := List Nat

/-- Python exceptions that the embedded code can raise. -/
inductive PyError where
  | fileNotFoundError
  | indexError
  | typeError
  | attributeError
  | valueError (msg : String)
deriving DecidableEq, Repr

/-- Python 3 ordered comparison between a `bytes` value and an `int`:
unsupported operand types, always raises `TypeError`.
(This models the expression `borg_results[...] > 0` inside
`len(borg_results[...] > 0)` in `borg_slurm.send_borg_results`.) -/
def bytesGtInt (_ : Bytes) (_ : Int) : Except PyError Bool :=
  .error .typeError

/-- `os.environ` as an association list; assignment replaces the first binding
of the key or appends a new one. -/
def envSet (env : List (String × String)) (k v : String) : List (String × String) :=
  match env with
  | [] => [(k, v)]
  | (k2, v2) :: rest => if k2 = k then (k, v) :: rest else (k2, v2) :: envSet rest k v

/-- `os.getenv`: first binding of the key, if any. -/
def envGet (env : List (String × String)) (k : String) : Option String :=
  match env with
  | [] => none
  | (k2, v2) :: rest => if k2 = k then some v2 else envGet rest k

/-- Helper for `pySplit`: split a character list at every occurrence of `c`.
`splitOnChar c []` is `[[]]`, matching Python where `"".split(sep) == [""]`. -/
def splitOnChar (c : Char) : List Char → List (List Char)
  | [] => [[]]
  | x :: xs =>
    if x = c then [] :: splitOnChar c xs
    else
      match splitOnChar c xs with
      | [] => [[x]]
      | g :: gs => (x :: g) :: gs

/-- Python `str.split(sep)` for a one-character separator (used for
`BORG_PATH.split(',')`, `BORG_EXCLUDE.split(',')` and `out.split('\n')`). -/
def pySplit (c : Char) (s : String) : List String :=
  (splitOnChar c s.data).map String.mk

/-- Helper for `readlines`: accumulate the current (reversed) line while
scanning the remaining characters. Each produced line keeps its trailing
newline; a final line without a newline is kept as-is; an empty tail after a
newline produces no extra line. -/
def readlinesGo (cur : List Char) : List Char → List (List Char)
  | [] => if cur = [] then [] else [cur.reverse]
  | x :: xs =>
    if x = '\n' then (cur.reverse ++ ['\n']) :: readlinesGo [] xs
    else readlinesGo (x :: cur) xs

/-- Python `f.readlines()` on a text file with the given full content. -/
def readlines (content : String) : List String :=
  (readlinesGo [] content.data).map String.mk

/-- Python `str.rstrip('\n')`: remove every trailing newline character. -/
def rstripNewline (s : String) : String :=
  String.mk ((s.data.reverse.dropWhile (fun c => c = '\n')).reverse)

/-- `find_email_address` from `borg_systemd/__main__.py`: read the per-user
`~/.forward` file, strip trailing newlines from each line, and take the first
line as the recipient address. A missing file (`FileNotFoundError`) is logged
and re-raised; an empty file raises `IndexError` from the `[0]` index. The
file content (or its absence) is supplied by the caller. -/
def find_email_address (forwardFile : Option String) : Except PyError String :=
  match forwardFile with
  | none => .error .fileNotFoundError
  | some content =>
    match (readlines content).map rstripNewline with
    | [] => .error .indexError
    | addr :: _ => .ok addr

/-- `set_borg_environment` from both scripts: iterate over the tab-delimited
rows of the config file; rows whose first field is an allowed variable are
written into the environment, any other row raises
`ValueError('... is not an allowed variable')`. Accessing a field of a row
that is too short raises `IndexError` (Python list indexing). -/
def set_borg_environment (rows : List (List String)) (allowed : List String)
    (env : List (String × String)) : Except PyError (List (String × String)) :=
  match rows with
  | [] => .ok env
  | row :: rest =>
    match row with
    | [] => .error .indexError
    | k :: rowRest =>
      if k ∈ allowed then
        match rowRest with
        | [] => .error .indexError
        | v :: _ => set_borg_environment rest allowed (envSet env k v)
      else
        .error (.valueError (k ++ " is not an allowed variable"))

/-- Python values that can appear in the nested command lists fed to
`flatten_list`: strings, or (arbitrarily nested) lists of such values. -/
inductive PyVal where
  | str (s : String)
  | list (xs : List PyVal)

mutual

/-- `flatten_list` from both scripts: for each element of the list, yield it
if it is a string, and recurse into it if it is an iterable that is not a
string. On `PyVal`, lists are the iterable non-string values and strings are
the atoms; the per-element `hasattr`/`isinstance` dispatch is `flattenOne`. -/
def flatten_list : List PyVal → List String
  | [] => []
  | x :: rest => flattenOne x ++ flatten_list rest

/-- The body of the `for` loop in `flatten_list`: a string is yielded as an
atom, a list is recursively flattened. -/
def flattenOne : PyVal → List String
  | .str s => [s]
  | .list xs => flatten_list xs

end

/-- Specification-side description of the leaves of one nested value: the leaf
strings in depth-first, left-to-right order. -/
def leafStrings : PyVal → List String
  | .str s => [s]
  | .list xs => (xs.attach.map (fun y => leafStrings y.1)).flatten
termination_by v => sizeOf v
decreasing_by
  have := y.2
  have : sizeOf y.1 < sizeOf xs := List.sizeOf_lt_of_mem this
  simp only [PyVal.list.sizeOf_spec]
  omega

/-- A `datetime.datetime` value: broken-down local time. -/
structure DateTime where
  year : Nat
  month : Nat
  day : Nat
  hour : Nat
  minute : Nat
  second : Nat
  microsecond : Nat
deriving DecidableEq, Repr

/-- Field ranges guaranteed by `datetime.datetime` (MINYEAR = 1,
MAXYEAR = 9999). -/
def DateTime.valid (d : DateTime) : Prop :=
  1 ≤ d.year ∧ d.year ≤ 9999 ∧ 1 ≤ d.month ∧ d.month ≤ 12 ∧
  1 ≤ d.day ∧ d.day ≤ 31 ∧ d.hour ≤ 23 ∧ d.minute ≤ 59 ∧
  d.second ≤ 59 ∧ d.microsecond ≤ 999999

instance (d : DateTime) : Decidable d.valid := by
  unfold DateTime.valid; infer_instance

/-- Two decimal digits, as printed by `%02d` for values below 100. -/
def pad2 (n : Nat) : List Char :=
  [Nat.digitChar (n / 10), Nat.digitChar (n % 10)]

/-- Four decimal digits, as printed by `%04d` for values below 10000. -/
def pad4 (n : Nat) : List Char :=
  [Nat.digitChar (n / 1000), Nat.digitChar (n / 100 % 10),
   Nat.digitChar (n / 10 % 10), Nat.digitChar (n % 10)]

/-- Six decimal digits, as printed by `%06d` for values below 1000000. -/
def pad6 (n : Nat) : List Char :=
  [Nat.digitChar (n / 100000), Nat.digitChar (n / 10000 % 10),
   Nat.digitChar (n / 1000 % 10), Nat.digitChar (n / 100 % 10),
   Nat.digitChar (n / 10 % 10), Nat.digitChar (n % 10)]

/-- `datetime.isoformat(sep)`: `YYYY-MM-DD<sep>HH:MM:SS`, followed by
`.ffffff` only when the microsecond field is non-zero. -/
def isoformatChars (sep : Char) (d : DateTime) : List Char :=
  pad4 d.year ++ '-' :: (pad2 d.month ++ '-' :: (pad2 d.day ++ sep ::
    (pad2 d.hour ++ ':' :: (pad2 d.minute ++ ':' :: (pad2 d.second ++
      (if d.microsecond = 0 then [] else '.' :: pad6 d.microsecond))))))

def isoformat (sep : Char) (d : DateTime) : String :=
  String.mk (isoformatChars sep d)

namespace BorgSystemd

/-- `now()` from `borg_systemd/__main__.py`:
`datetime.datetime.now().replace(microsecond=0).isoformat('_')`.
Only the microsecond field is zeroed; seconds are kept. -/
def now (d : DateTime) : String :=
  isoformat '_' { d with microsecond := 0 }

/-- `generate_archive_name` from `borg_systemd/__main__.py`:
`'_'.join([archive_time, host])`. -/
def generate_archive_name (d : DateTime) (host : String) : String :=
  now d ++ "_" ++ host

end BorgSystemd

namespace BorgSlurm

/-- `now()` from `borg_slurm/__main__.py`:
`datetime.datetime.now().replace(microsecond=0, second=0).isoformat('_')`.
Both the second and microsecond fields are zeroed. -/
def now (d : DateTime) : String :=
  isoformat '_' { d with second := 0, microsecond := 0 }

/-- `generate_archive_name` from `borg_slurm/__main__.py`. -/
def generate_archive_name (d : DateTime) (host : String) : String :=
  now d ++ "_" ++ host

end BorgSlurm

/-- The minute-resolution truncation of a clock reading. Two readings taken
at least one minute apart always have different minute truncations. -/
def minuteKey (d : DateTime) : Nat × Nat × Nat × Nat × Nat :=
  (d.year, d.month, d.day, d.hour, d.minute)

/-- The second-resolution truncation of a clock reading. -/
def secondKey (d : DateTime) : (Nat × Nat × Nat × Nat × Nat) × Nat :=
  (minuteKey d, d.second)

/-- The triple captured from one `subprocess.Popen(...).communicate()` call. -/
structure RunResult where
  return_code : Int
  out_bytes : Bytes
  err_bytes : Bytes
deriving DecidableEq, Repr

/-- The dict-shaped accumulating result record passed to `send_borg_results`:
`return_code` / `out_bytes` / `err_bytes` are always present after
`run_backup`; the `prune_out` / `prune_err` keys are added only after the
prune step, so they are optional. (The slurm variant also stores a `job_id`
key, which `send_borg_results` never reads.) -/
structure BorgResults where
  return_code : Int
  out_bytes : Bytes
  err_bytes : Bytes
  prune_out : Option Bytes := none
  prune_err : Option Bytes := none
deriving DecidableEq, Repr

/-- A mail attachment: the basename of the temporary file and the bytes
written to it. -/
structure Attachment where
  filename : String
  content : Bytes
deriving DecidableEq, Repr

/-- One delivered mail message: subject, optional body text, attachments in
order, and the recipient (the resolved address in the SMTP variant, the local
host name in the `mail`-command variant). -/
structure Notification where
  subject : String
  text : Option String
  attachments : List Attachment
  address : Option String
deriving DecidableEq, Repr

/-- Externally observable events of one run, in order. -/
inductive Event where
  | subprocess (cmd : List String) (cwd : Option String)
  | mailSent (n : Notification)
deriving DecidableEq, Repr

/-- How the process ends: `sys.exit(code)` / falling off the end of `main`
(exit 0), or an uncaught Python exception. -/
inductive RunEnd where
  | exited (code : Int)
  | raised (e : PyError)
deriving DecidableEq, Repr

/-- The observable outcome of one run: the ordered event trace and the way the
process ended. -/
structure Outcome where
  events : List Event
  result : RunEnd
deriving DecidableEq, Repr

namespace BorgSystemd

/-- The allow-list from `borg_systemd/__main__.py`. -/
def allowed_variables : List String :=
  ["BORG_BASE", "BORG_EXCLUDE", "BORG_PASSPHRASE", "BORG_PATH",
   "BORG_REMOTE_PATH", "BORG_REPO", "BORG_RSH", "BORG_HOST_ID"]

/-- The `borg list` command from `list_borg_backups`. -/
def list_command : List String :=
  flatten_list [.str "borg", .str "list"]

/-- The `borg prune` command from `prune_backup`. -/
def prune_command : List String :=
  flatten_list [.str "borg", .str "prune",
    .str "--verbose", .str "--list", .str "--stats",
    .str "--lock-wait", .str "600",
    .str "--keep-within=1d", .str "--keep-daily=7",
    .str "--keep-weekly=4", .str "--keep-monthly=3"]

/-- The `borg create` command built inside `run_backup`, including the nested
list structure fed to `flatten_list`. -/
def borg_command (path_list exclude_list : List String)
    (clock : DateTime) (host : String) : List String :=
  flatten_list [.str "borg", .str "create",
    .str "--verbose",
    .str "--compression", .str "auto,lz4",
    .str "--lock-wait", .str "600",
    .list (exclude_list.map (fun x => PyVal.list [.str "--exclude", .str x])),
    .str ("::" ++ generate_archive_name clock host),
    .list (path_list.map PyVal.str)]

/-- `send_borg_results` from `borg_systemd/__main__.py`: write each of the
four known byte streams to a temp file and attach it, but only when the key
is present in the dict and the byte string is non-empty
(`len(borg_results[k]) > 0`); then call `send_mail`. -/
def send_borg_results (borg_results : BorgResults) (subject : String)
    (text : Option String) (address : Option String) : Notification :=
  let atts : List Attachment :=
    (if borg_results.err_bytes.length > 0
      then [⟨"borgbackup.err.txt", borg_results.err_bytes⟩] else [])
    ++ (if borg_results.out_bytes.length > 0
      then [⟨"borgbackup.out.txt", borg_results.out_bytes⟩] else [])
    ++ (match borg_results.prune_out with
      | none => []
      | some b => if b.length > 0 then [⟨"prune.out.txt", b⟩] else [])
    ++ (match borg_results.prune_err with
      | none => []
      | some b => if b.length > 0 then [⟨"prune.err.txt", b⟩] else [])
  { subject := subject, text := text, attachments := atts, address := address }

/-- Everything outside the process that one run of the systemd-variant `main`
can observe: the config file rows, the pre-existing environment, the three
`now()` clock readings in program order, the host name, the `~/.forward` file
content, and the results of the create / prune / list subprocesses. -/
structure World where
  configRows : List (List String)
  initialEnv : List (String × String)
  clockStart : DateTime
  clockArchive : DateTime
  clockEnd : DateTime
  host : String
  forwardFile : Option String
  createResult : RunResult
  pruneResult : RunResult
  listOut : String
  listErr : String
deriving DecidableEq, Repr

/-- `main` from `borg_systemd/__main__.py`, as a function from the external
world to the observable outcome. Logging (including `config_log` and the
debug loops) is not modelled. -/
def main (w : World) : Outcome :=
  match set_borg_environment w.configRows allowed_variables w.initialEnv with
  | .error e => ⟨[], .raised e⟩
  | .ok env =>
    match envGet env "BORG_PATH" with
    | none => ⟨[], .raised .attributeError⟩
    | some bp =>
      match envGet env "BORG_EXCLUDE" with
      | none => ⟨[], .raised .attributeError⟩
      | some be =>
        let borg_path := pySplit ',' bp
        let borg_exclude := pySplit ',' be
        let borg_base := envGet env "BORG_BASE"
        let start_time := now w.clockStart
        let cmd := borg_command borg_path borg_exclude w.clockArchive w.host
        let evCreate := Event.subprocess cmd borg_base
        let results : BorgResults :=
          { return_code := w.createResult.return_code,
            out_bytes := w.createResult.out_bytes,
            err_bytes := w.createResult.err_bytes }
        match find_email_address w.forwardFile with
        | .error e => ⟨[evCreate], .raised e⟩
        | .ok my_addr =>
          if results.return_code ≠ 0 then
            let subject := "[borg-systemd] Backup WARNING: script failed with return_code "
              ++ toString results.return_code
            let text := "Backups started at " ++ start_time ++ " failed."
            let n := send_borg_results results subject (some text) (some my_addr)
            ⟨[evCreate, .mailSent n], .exited results.return_code⟩
          else
            let evPrune := Event.subprocess prune_command borg_base
            let results2 : BorgResults :=
              { results with
                  prune_out := some w.pruneResult.out_bytes,
                  prune_err := some w.pruneResult.err_bytes }
            let evList := Event.subprocess list_command none
            let current_backups := w.listOut ++ "\n\n" ++ w.listErr
            let end_time := now w.clockEnd
            let subject := "[borg-systemd] Backup script finished at " ++ end_time
            let text := "Backups started at " ++ start_time
              ++ " finished. Logs are attached.\n\nCurrent backups:\n" ++ current_backups
            let n := send_borg_results results2 subject (some text) (some my_addr)
            ⟨[evCreate, evPrune, evList, .mailSent n], .exited 0⟩

end BorgSystemd

namespace BorgSlurm

/-- The allow-list from `borg_slurm/__main__.py` (no `BORG_HOST_ID`). -/
def allowed_variables : List String :=
  ["BORG_BASE", "BORG_EXCLUDE", "BORG_PASSPHRASE", "BORG_PATH",
   "BORG_REMOTE_PATH", "BORG_REPO", "BORG_RSH"]

/-- The fixed SLURM job name used by the script. -/
def job_name : String := "borgbackup"

/-- The `squeue` probe command from `check_for_borg_job`. -/
def squeue_command (jobName : String) : List String :=
  ["squeue", "-n", jobName, "-o", "%A"]

/-- `check_for_borg_job` post-processing: `jobid = out.split('\n')[1]`
(raising `IndexError` when the output has fewer than two lines) and the pair
`(jobid != '', jobid)`. The raw `squeue` stdout (text mode) is supplied by
the caller. -/
def check_for_borg_job (squeueOut : String) : Except PyError (Bool × String) :=
  match (pySplit '\n' squeueOut)[1]? with
  | none => .error .indexError
  | some jobid => .ok (jobid != "", jobid)

/-- ASCII decimal digit bytes, as matched by the `re` pattern `b'\d+'`. -/
def isDigitByte (n : Nat) : Bool :=
  decide (48 ≤ n) && decide (n ≤ 57)

/-- `re.compile(b'\d+').search(err)`: the first maximal run of decimal digit
bytes, or `None` when no digit occurs. -/
def regexSearchDigits : Bytes → Option Bytes
  | [] => none
  | b :: rest =>
    if isDigitByte b then some (b :: rest.takeWhile isDigitByte)
    else regexSearchDigits rest

/-- `bytes.decode("utf-8")` specialised to digit bytes. -/
def decodeAscii (b : Bytes) : String :=
  String.mk (b.map Char.ofNat)

/-- The dict returned by the slurm variant of `run_backup` / `prune_backup`:
the captured subprocess triple plus the SLURM job id scraped from stderr. -/
structure SlurmRunResult where
  job_id : String
  return_code : Int
  out_bytes : Bytes
  err_bytes : Bytes
deriving DecidableEq, Repr

/-- The `borg list` command from `list_borg_backups`. -/
def list_command : List String :=
  flatten_list [.str "borg", .str "list"]

/-- The `salloc ... borg prune` command from `prune_backup`. -/
def prune_command (jobName : String) : List String :=
  flatten_list [.str "salloc",
    .str ("--job-name=" ++ jobName),
    .str "--cpus-per-task=1",
    .str "--nice=1",
    .str "borg", .str "prune",
    .str "--verbose", .str "--list", .str "--stats",
    .str "--keep-within=1d", .str "--keep-daily=7",
    .str "--keep-weekly=4", .str "--keep-monthly=3"]

/-- The `salloc ... borg create` command built inside the slurm variant of
`run_backup`, including the nested list structure fed to `flatten_list`. -/
def borg_command (path_list exclude_list : List String) (jobName : String)
    (clock : DateTime) (host : String) : List String :=
  flatten_list [.str "salloc",
    .str ("--job-name=" ++ jobName),
    .str "--cpus-per-task=1",
    .str "--nice=1",
    .str "borg", .str "create",
    .str "--verbose",
    .str "--compression", .str "auto,lz4",
    .list (exclude_list.map (fun x => PyVal.list [.str "--exclude", .str x])),
    .str ("::" ++ generate_archive_name clock host),
    .list (path_list.map PyVal.str)]

/-- Post-processing of the create subprocess in the slurm `run_backup`:
scrape the job id from stderr with `re.search(b'\d+', err).group(0)`. When
stderr contains no digit, `re.search` returns `None` and `.group(0)` raises
`AttributeError`, regardless of the exit code. -/
def run_backup (proc : RunResult) : Except PyError SlurmRunResult :=
  match regexSearchDigits proc.err_bytes with
  | none => .error .attributeError
  | some ds =>
    .ok { job_id := decodeAscii ds, return_code := proc.return_code,
          out_bytes := proc.out_bytes, err_bytes := proc.err_bytes }

/-- Post-processing of the prune subprocess in the slurm `prune_backup`: the
same stderr job-id scrape as `run_backup`. -/
def prune_backup (proc : RunResult) : Except PyError SlurmRunResult :=
  match regexSearchDigits proc.err_bytes with
  | none => .error .attributeError
  | some ds =>
    .ok { job_id := decodeAscii ds, return_code := proc.return_code,
          out_bytes := proc.out_bytes, err_bytes := proc.err_bytes }

/-- `send_borg_results` from `borg_slurm/__main__.py`. Its first guard is
`if len(borg_results['err_bytes'] > 0):` — note the misplaced parenthesis:
the expression compares a `bytes` value with the int `0`, which raises
`TypeError` in Python 3, so the function always raises before creating any
attachment or sending any mail (the `err_bytes` key is always present in the
records both call sites pass). -/
def send_borg_results (borg_results : BorgResults) (subject : String)
    (text : Option String) : Except PyError Notification :=
  match bytesGtInt borg_results.err_bytes 0 with
  | .error e => .error e
  | .ok _ =>
    -- unreachable: the bytes-vs-int comparison above always raises, and even
    -- if it returned a bool, `len(bool)` would itself raise TypeError
    .error .typeError

/-- Everything outside the process that one run of the slurm-variant `main`
can observe. -/
structure World where
  configRows : List (List String)
  initialEnv : List (String × String)
  squeueOut : String
  host : String
  clockStart : DateTime
  clockArchive : DateTime
  clockEnd : DateTime
  createProc : RunResult
  pruneProc : RunResult
  listOut : String
deriving DecidableEq, Repr

/-- `main` from `borg_slurm/__main__.py`, as a function from the external
world to the observable outcome. -/
def main (w : World) : Outcome :=
  match set_borg_environment w.configRows allowed_variables w.initialEnv with
  | .error e => ⟨[], .raised e⟩
  | .ok env =>
    match envGet env "BORG_PATH" with
    | none => ⟨[], .raised .attributeError⟩
    | some bp =>
      match envGet env "BORG_EXCLUDE" with
      | none => ⟨[], .raised .attributeError⟩
      | some be =>
        let borg_path := pySplit ',' bp
        let borg_exclude := pySplit ',' be
        let borg_base := envGet env "BORG_BASE"
        let evProbe := Event.subprocess (squeue_command job_name) none
        match check_for_borg_job w.squeueOut with
        | .error e => ⟨[evProbe], .raised e⟩
        | .ok running_backup =>
          if running_backup.1 then
            let subject :=
              "[Tom@SLURM] Backup WARNING: script still in squeue after two hours"
            let text := "Job " ++ job_name ++ " found with job_id " ++ running_backup.2
            let n : Notification :=
              { subject := subject, text := some text,
                attachments := [], address := some w.host }
            ⟨[evProbe, .mailSent n], .exited 0⟩
          else
            let start_time := now w.clockStart
            let cmd := borg_command borg_path borg_exclude job_name w.clockArchive w.host
            let evCreate := Event.subprocess cmd borg_base
            match run_backup w.createProc with
            | .error e => ⟨[evProbe, evCreate], .raised e⟩
            | .ok results =>
              let end_time := now w.clockEnd
              let borgResults : BorgResults :=
                { return_code := results.return_code,
                  out_bytes := results.out_bytes,
                  err_bytes := results.err_bytes }
              if results.return_code ≠ 0 then
                let subject :=
                  "[Tom@SLURM] Backup WARNING: script failed with return_code "
                    ++ toString results.return_code
                match send_borg_results borgResults subject none with
                | .error e => ⟨[evProbe, evCreate], .raised e⟩
                | .ok n =>
                  ⟨[evProbe, evCreate, .mailSent n], .exited results.return_code⟩
              else
                let evPrune := Event.subprocess (prune_command job_name) borg_base
                match prune_backup w.pruneProc with
                | .error e => ⟨[evProbe, evCreate, evPrune], .raised e⟩
                | .ok prune_results =>
                  let borgResults2 :=
                    { borgResults with
                        prune_out := some prune_results.out_bytes,
                        prune_err := some prune_results.err_bytes }
                  let evList := Event.subprocess list_command none
                  let current_backups := w.listOut
                  let subject := "[Tom@SLURM] Backup script finished at " ++ end_time
                  let text := "Backups started at " ++ start_time
                    ++ " finished. Logs are attached.\n\nCurrent backups:\n" ++ current_backups
                  match send_borg_results borgResults2 subject (some text) with
                  | .error e => ⟨[evProbe, evCreate, evPrune, evList], .raised e⟩
                  | .ok n =>
                    ⟨[evProbe, evCreate, evPrune, evList, .mailSent n], .exited 0⟩

end BorgSlurm

/-- A fixed clock reading (5 seconds past 03:04) used for concrete runs. -/
def clock0 : DateTime := ⟨2020, 1, 2, 3, 4, 5, 0⟩

/-- The three-row config file of the round-trip scenario in the spec. -/
def roundtripRows : List (List String) :=
  [["BORG_BASE", "/tmp/repo"], ["BORG_PATH", "/data"], ["BORG_EXCLUDE", "/data/tmp"]]

/-- A slurm-variant run in which no duplicate job is queued and the create
step exits with code 2; its stderr is `b"123"` (so the job-id scrape
succeeds). -/
def failWorldSlurm : BorgSlurm.World :=
  { configRows := roundtripRows,
    initialEnv := [],
    squeueOut := "JOBID\n",
    host := "myhost",
    clockStart := clock0, clockArchive := clock0, clockEnd := clock0,
    createProc := ⟨2, [], [49, 50, 51]⟩,
    pruneProc := ⟨0, [], [52]⟩,
    listOut := "" }

/-- A systemd-variant run in which the create step exits with code 2 with
stderr `b"err"` and empty stdout, and the forward file resolves. -/
def failWorldSystemd : BorgSystemd.World :=
  { configRows := roundtripRows,
    initialEnv := [],
    clockStart := clock0, clockArchive := clock0, clockEnd := clock0,
    host := "myhost",
    forwardFile := some "me@example.org\n",
    createResult := ⟨2, [], [101, 114, 114]⟩,
    pruneResult := ⟨0, [], []⟩,
    listOut := "", listErr := "" }

/-- A slurm-variant run in which create succeeds (exit 0, stderr `b"1"`) and
prune fails (exit 3, stderr `b"4"`). -/
def pruneFailWorldSlurm : BorgSlurm.World :=
  { configRows := roundtripRows,
    initialEnv := [],
    squeueOut := "JOBID\n",
    host := "myhost",
    clockStart := clock0, clockArchive := clock0, clockEnd := clock0,
    createProc := ⟨0, [], [49]⟩,
    pruneProc := ⟨3, [], [52]⟩,
    listOut := "archives" }

/-- A systemd-variant run in which create succeeds (stdout `b"o"`, empty
stderr) and prune exits 3 with stdout `b"p"` and stderr `b"q"`. -/
def pruneFailWorldSystemd : BorgSystemd.World :=
  { configRows := roundtripRows,
    initialEnv := [],
    clockStart := clock0, clockArchive := clock0, clockEnd := clock0,
    host := "myhost",
    forwardFile := some "me@example.org\n",
    createResult := ⟨0, [111], []⟩,
    pruneResult := ⟨3, [112], [113]⟩,
    listOut := "archives", listErr := "" }

/-- The systemd-variant round-trip scenario: the spec's three-row config and
a successful create. -/
def roundtripWorld : BorgSystemd.World :=
  { configRows := roundtripRows,
    initialEnv := [],
    clockStart := clock0, clockArchive := clock0, clockEnd := clock0,
    host := "myhost",
    forwardFile := some "me@example.org\n",
    createResult := ⟨0, [], []⟩,
    pruneResult := ⟨0, [], []⟩,
    listOut := "", listErr := "" }

/-- A slurm-variant world with a config row whose key is not allow-listed. -/
def badKeyWorldSlurm : BorgSlurm.World :=
  { configRows := [["BORG_EVIL", "x"]],
    initialEnv := [],
    squeueOut := "JOBID\n",
    host := "myhost",
    clockStart := clock0, clockArchive := clock0, clockEnd := clock0,
    createProc := ⟨0, [], [49]⟩,
    pruneProc := ⟨0, [], [52]⟩,
    listOut := "" }

/-- A systemd-variant world with a config row whose key is not allow-listed. -/
def badKeyWorldSystemd : BorgSystemd.World :=
  { configRows := [["BORG_EVIL", "x"]],
    initialEnv := [],
    clockStart := clock0, clockArchive := clock0, clockEnd := clock0,
    host := "myhost",
    forwardFile := some "me@example.org\n",
    createResult := ⟨0, [], []⟩,
    pruneResult := ⟨0, [], []⟩,
    listOut := "", listErr := "" }

/-- A slurm-variant world whose `squeue` probe reports an active job with id
`123`. -/
def activeJobWorldSlurm : BorgSlurm.World :=
  { configRows := roundtripRows,
    initialEnv := [],
    squeueOut := "JOBID\n123\n",
    host := "myhost",
    clockStart := clock0, clockArchive := clock0, clockEnd := clock0,
    createProc := ⟨0, [], [49]⟩,
    pruneProc := ⟨0, [], [52]⟩,
    listOut := "" }

/-! ## Theorems -/

theorem leafStrings_list (xs : List PyVal) :
    leafStrings (.list xs) = (xs.map leafStrings).flatten := by
  rw [leafStrings, List.attach_map_val]

theorem flatten_list_spec :
    (∀ l : List PyVal, flatten_list l = (l.map leafStrings).flatten) ∧
    (∀ v : PyVal, flattenOne v = leafStrings v) :=
  flatten_list.mutual_induct
    (fun l => flatten_list l = (l.map leafStrings).flatten)
    (fun v => flattenOne v = leafStrings v)
    (fun s => by simp [flattenOne, leafStrings])
    (fun xs ih => by
      show flattenOne (.list xs) = leafStrings (.list xs)
      rw [show flattenOne (.list xs) = flatten_list xs from rfl, leafStrings_list]
      exact ih)
    (by simp [flatten_list])
    (fun x rest ih1 ih2 => by simp [flatten_list, ih1, ih2])

/-- C9: `flatten_list` yields exactly the leaf strings of the nested input in
depth-first left-to-right order, treating strings as atoms; on an already
flat list of strings it is the identity. -/
theorem claim9_flatten_list :
    (∀ l : List PyVal, flatten_list l = (l.map leafStrings).flatten) ∧
    (∀ s : List String, flatten_list (s.map PyVal.str) = s) := by
  constructor
  · exact flatten_list_spec.1
  · intro s
    induction s with
    | nil => rfl
    | cons a s ih => simp [flatten_list, flattenOne, ih]

/-- C8: in the SMTP variant, the recipient is the first line of the per-user
forwarding file with trailing newlines stripped; a missing forwarding file
re-raises `FileNotFoundError` instead of substituting a default address. -/
theorem claim8_forward_file :
    find_email_address none = .error .fileNotFoundError ∧
    (∀ content line rest, readlines content = line :: rest →
      find_email_address (some content) = .ok (rstripNewline line)) := by
  refine ⟨rfl, ?_⟩
  intro content line rest h
  simp [find_email_address, h]

theorem claim8_forward_file_witness :
    find_email_address none = .error .fileNotFoundError ∧
    find_email_address (some "me@example.org\nsecond\n") = .ok "me@example.org" := by
  refine ⟨claim8_forward_file.1, ?_⟩
  have h := claim8_forward_file.2 "me@example.org\nsecond\n" "me@example.org\n"
    ["second\n"] (by decide)
  rw [h]
  rfl

theorem regexSearchDigits_eq_none (b : Bytes)
    (h : ∀ x ∈ b, BorgSlurm.isDigitByte x = false) :
    BorgSlurm.regexSearchDigits b = none := by
  induction b with
  | nil => rfl
  | cons x rest ih =>
    have hx := h x (by simp)
    simp only [BorgSlurm.regexSearchDigits, hx, Bool.false_eq_true, if_false]
    exact ih fun y hy => h y (by simp [hy])

/-- C10: the slurm variants of `run_backup` and `prune_backup` scrape the job
id as the first run of decimal digits in the captured stderr; when stderr
contains no digit they raise (`AttributeError` from `None.group(0)`) instead
of returning a result record, regardless of the exit code. -/
theorem claim10_jobid_scrape (proc : RunResult)
    (h : ∀ x ∈ proc.err_bytes, BorgSlurm.isDigitByte x = false) :
    BorgSlurm.run_backup proc = .error .attributeError ∧
    BorgSlurm.prune_backup proc = .error .attributeError := by
  have hn := regexSearchDigits_eq_none proc.err_bytes h
  constructor <;> simp [BorgSlurm.run_backup, BorgSlurm.prune_backup, hn]

theorem claim10_jobid_scrape_witness :
    BorgSlurm.run_backup ⟨0, [111, 107], [110, 111]⟩ = .error .attributeError ∧
    BorgSlurm.prune_backup ⟨0, [111, 107], [110, 111]⟩ = .error .attributeError :=
  claim10_jobid_scrape ⟨0, [111, 107], [110, 111]⟩ (by decide)

theorem envGet_envSet_self (env : List (String × String)) (k v : String) :
    envGet (envSet env k v) k = some v := by
  induction env with
  | nil => simp [envSet, envGet]
  | cons p rest ih =>
    obtain ⟨k2, v2⟩ := p
    by_cases h : k2 = k <;> simp [envSet, envGet, h, ih]

theorem envGet_envSet_ne (env : List (String × String)) (k k2 v : String)
    (h : k2 ≠ k) : envGet (envSet env k v) k2 = envGet env k2 := by
  have h2 : ¬(k = k2) := fun e => h e.symm
  induction env with
  | nil => simp [envSet, envGet, h2]
  | cons p rest ih =>
    obtain ⟨a, b⟩ := p
    by_cases ha : a = k
    · subst ha
      simp [envSet, envGet, h2]
    · simp [envSet, envGet, ha, ih]

theorem set_borg_environment_ok (rows : List (List String)) (allowed : List String)
    (env : List (String × String))
    (h : ∀ row ∈ rows, ∃ k v t, row = k :: v :: t ∧ k ∈ allowed) :
    ∃ env2, set_borg_environment rows allowed env = .ok env2 := by
  induction rows generalizing env with
  | nil => exact ⟨env, rfl⟩
  | cons row rest ih =>
    obtain ⟨k, v, t, hrow, hk⟩ := h row (by simp)
    subst hrow
    simp only [set_borg_environment, hk, if_true]
    exact ih (envSet env k v) fun r hr => h r (by simp [hr])

theorem set_borg_environment_untouched (rows : List (List String))
    (allowed : List String) (env env2 : List (String × String)) (k : String)
    (hok : set_borg_environment rows allowed env = .ok env2)
    (hk : ∀ row ∈ rows, row.head? ≠ some k) :
    envGet env2 k = envGet env k := by
  induction rows generalizing env with
  | nil =>
    simp only [set_borg_environment, Except.ok.injEq] at hok
    rw [hok]
  | cons row rest ih =>
    match row with
    | [] => simp [set_borg_environment] at hok
    | k2 :: rowRest =>
      by_cases hmem : k2 ∈ allowed
      · match rowRest with
        | [] => simp [set_borg_environment, hmem] at hok
        | v :: t =>
          simp only [set_borg_environment, hmem, if_true] at hok
          have hne : k2 ≠ k := by
            intro e
            exact hk (k2 :: v :: t) (by simp) (by simp [e])
          rw [ih (envSet env k2 v) hok fun r hr => hk r (by simp [hr]),
            envGet_envSet_ne env k2 k v ?_]
          exact fun e => hne e.symm
      · simp [set_borg_environment, hmem] at hok

theorem set_borg_environment_values (rows : List (List String))
    (allowed : List String) (env env2 : List (String × String))
    (hok : set_borg_environment rows allowed env = .ok env2)
    (hnd : (rows.map fun r => r.head?).Nodup) :
    ∀ k v t, (k :: v :: t) ∈ rows → envGet env2 k = some v := by
  induction rows generalizing env with
  | nil => intro k v t h; simp at h
  | cons row rest ih =>
    intro k v t hmem
    match row with
    | [] => simp [set_borg_environment] at hok
    | k2 :: rowRest =>
      by_cases hall : k2 ∈ allowed
      · match rowRest with
        | [] => simp [set_borg_environment, hall] at hok
        | v2 :: t2 =>
          simp only [set_borg_environment, hall, if_true] at hok
          simp only [List.map_cons, List.nodup_cons] at hnd
          rcases List.mem_cons.1 hmem with hhead | htail
          · have hkk : k = k2 ∧ v = v2 := by
              have := hhead
              simp only [List.cons.injEq] at this
              exact ⟨this.1, this.2.1⟩
            obtain ⟨rfl, rfl⟩ := hkk
            have huntouched : envGet env2 k = envGet (envSet env k v) k := by
              refine set_borg_environment_untouched rest allowed _ _ k hok ?_
              intro r hr he
              exact hnd.1 (by
                have hm : some k ∈ List.map (fun r => r.head?) rest :=
                  List.mem_map.2 ⟨r, hr, he⟩
                simpa using hm)
            rw [huntouched, envGet_envSet_self]
          · exact ih (envSet env k2 v2) hok hnd.2 k v t htail
      · simp [set_borg_environment, hall] at hok

theorem set_borg_environment_bad_key (rows : List (List String))
    (allowed : List String) (env : List (String × String))
    (hrows : ∀ row ∈ rows, ∃ k v t, row = k :: v :: t)
    (hbad : ∃ k v t, (k :: v :: t) ∈ rows ∧ k ∉ allowed) :
    ∃ msg, set_borg_environment rows allowed env = .error (.valueError msg) := by
  induction rows generalizing env with
  | nil => obtain ⟨k, v, t, h, _⟩ := hbad; simp at h
  | cons row rest ih =>
    obtain ⟨k2, v2, t2, hrow⟩ := hrows row (by simp)
    subst hrow
    by_cases hall : k2 ∈ allowed
    · simp only [set_borg_environment, hall, if_true]
      refine ih (envSet env k2 v2) (fun r hr => hrows r (by simp [hr])) ?_
      obtain ⟨k, v, t, hmem, hk⟩ := hbad
      rcases List.mem_cons.1 hmem with hhead | htail
      · exfalso
        simp only [List.cons.injEq] at hhead
        exact hk (by rw [hhead.1]; exact hall)
      · exact ⟨k, v, t, htail, hk⟩
    · exact ⟨k2 ++ " is not an allowed variable", by
        simp [set_borg_environment, hall]⟩

/-- C2: a config file all of whose rows carry an allow-listed key loads
successfully and stores each key's value unchanged in the environment
mapping (stated for distinct keys; with duplicates Python keeps the last
assignment); a config file with at least one row whose key is outside the
allow-list makes the load raise `ValueError`, and `main` then terminates
with no subprocess invoked, in both script variants. -/
theorem claim2_config_allowlist :
    (∀ (allowed : List String) (rows : List (List String))
        (env : List (String × String)),
        (∀ row ∈ rows, ∃ k v t, row = k :: v :: t ∧ k ∈ allowed) →
        ∃ env2, set_borg_environment rows allowed env = .ok env2 ∧
          ((rows.map fun r => r.head?).Nodup →
            ∀ k v t, (k :: v :: t) ∈ rows → envGet env2 k = some v)) ∧
    (∀ (allowed : List String) (rows : List (List String))
        (env : List (String × String)),
        (∀ row ∈ rows, ∃ k v t, row = k :: v :: t) →
        (∃ k v t, (k :: v :: t) ∈ rows ∧ k ∉ allowed) →
        ∃ msg, set_borg_environment rows allowed env = .error (.valueError msg)) ∧
    (∀ w : BorgSystemd.World,
        (∀ row ∈ w.configRows, ∃ k v t, row = k :: v :: t) →
        (∃ k v t, (k :: v :: t) ∈ w.configRows ∧ k ∉ BorgSystemd.allowed_variables) →
        (BorgSystemd.main w).events = [] ∧
        ∃ msg, (BorgSystemd.main w).result = .raised (.valueError msg)) ∧
    (∀ w : BorgSlurm.World,
        (∀ row ∈ w.configRows, ∃ k v t, row = k :: v :: t) →
        (∃ k v t, (k :: v :: t) ∈ w.configRows ∧ k ∉ BorgSlurm.allowed_variables) →
        (BorgSlurm.main w).events = [] ∧
        ∃ msg, (BorgSlurm.main w).result = .raised (.valueError msg)) := by
  refine ⟨?_, ?_, ?_, ?_⟩
  · intro allowed rows env h
    obtain ⟨env2, hok⟩ := set_borg_environment_ok rows allowed env h
    exact ⟨env2, hok,
      fun hnd => set_borg_environment_values rows allowed env env2 hok hnd⟩
  · intro allowed rows env hrows hbad
    exact set_borg_environment_bad_key rows allowed env hrows hbad
  · intro w hrows hbad
    obtain ⟨msg, hmsg⟩ := set_borg_environment_bad_key w.configRows
      BorgSystemd.allowed_variables w.initialEnv hrows hbad
    exact ⟨by simp [BorgSystemd.main, hmsg], msg, by simp [BorgSystemd.main, hmsg]⟩
  · intro w hrows hbad
    obtain ⟨msg, hmsg⟩ := set_borg_environment_bad_key w.configRows
      BorgSlurm.allowed_variables w.initialEnv hrows hbad
    exact ⟨by simp [BorgSlurm.main, hmsg], msg, by simp [BorgSlurm.main, hmsg]⟩

theorem claim2_config_allowlist_witness :
    (∃ env2, set_borg_environment [["BORG_PATH", "/data"], ["BORG_BASE", "/tmp/repo"]]
        BorgSystemd.allowed_variables [] = .ok env2 ∧
        envGet env2 "BORG_PATH" = some "/data") ∧
    (∃ msg, set_borg_environment [["BORG_EVIL", "x"]] BorgSystemd.allowed_variables []
        = .error (.valueError msg)) ∧
    ((BorgSystemd.main badKeyWorldSystemd).events = [] ∧
      ∃ msg, (BorgSystemd.main badKeyWorldSystemd).result = .raised (.valueError msg)) ∧
    ((BorgSlurm.main badKeyWorldSlurm).events = [] ∧
      ∃ msg, (BorgSlurm.main badKeyWorldSlurm).result = .raised (.valueError msg)) := by
  refine ⟨?_, ?_, ?_, ?_⟩
  · obtain ⟨env2, hok, hvals⟩ := claim2_config_allowlist.1 BorgSystemd.allowed_variables
      [["BORG_PATH", "/data"], ["BORG_BASE", "/tmp/repo"]] [] (by
        intro row hr
        simp only [List.mem_cons, List.not_mem_nil, or_false] at hr
        rcases hr with rfl | rfl
        · exact ⟨"BORG_PATH", "/data", [], rfl, by decide⟩
        · exact ⟨"BORG_BASE", "/tmp/repo", [], rfl, by decide⟩)
    exact ⟨env2, hok, hvals (by decide) "BORG_PATH" "/data" [] (by decide)⟩
  · exact claim2_config_allowlist.2.1 BorgSystemd.allowed_variables
      [["BORG_EVIL", "x"]] [] (by
        intro row hr
        simp only [List.mem_cons, List.not_mem_nil, or_false] at hr
        exact ⟨"BORG_EVIL", "x", [], hr⟩)
      ⟨"BORG_EVIL", "x", [], by decide, by decide⟩
  · exact claim2_config_allowlist.2.2.1 badKeyWorldSystemd (by
        intro row hr
        simp only [badKeyWorldSystemd, List.mem_cons, List.not_mem_nil, or_false] at hr
        exact ⟨"BORG_EVIL", "x", [], hr⟩)
      ⟨"BORG_EVIL", "x", [], by decide, by decide⟩
  · exact claim2_config_allowlist.2.2.2 badKeyWorldSlurm (by
        intro row hr
        simp only [badKeyWorldSlurm, List.mem_cons, List.not_mem_nil, or_false] at hr
        exact ⟨"BORG_EVIL", "x", [], hr⟩)
      ⟨"BORG_EVIL", "x", [], by decide, by decide⟩

/-- C1 (create failure): in the systemd variant the claim holds — with a
create exit code of 2 the run stops after the create invocation, sends
exactly one failure notification whose attachments are the non-empty
captured create streams, and exits 2. In the slurm variant the same
scenario never reaches the notification: `send_borg_results` evaluates
`len(borg_results['err_bytes'] > 0)`, the bytes-vs-int comparison raises
`TypeError`, no mail is sent, and the interpreter dies with the uncaught
exception instead of exiting with the create step's code. -/
theorem claim1_create_failure :
    BorgSlurm.main failWorldSlurm =
      { events := [
          .subprocess (BorgSlurm.squeue_command BorgSlurm.job_name) none,
          .subprocess (BorgSlurm.borg_command ["/data"] ["/data/tmp"]
            BorgSlurm.job_name clock0 "myhost") (some "/tmp/repo")],
        result := .raised .typeError } ∧
    failWorldSlurm.createProc.return_code = 2 ∧
    BorgSystemd.main failWorldSystemd =
      { events := [
          .subprocess (BorgSystemd.borg_command ["/data"] ["/data/tmp"] clock0 "myhost")
            (some "/tmp/repo"),
          .mailSent
            { subject := "[borg-systemd] Backup WARNING: script failed with return_code 2",
              text := some "Backups started at 2020-01-02_03:04:05 failed.",
              attachments := [⟨"borgbackup.err.txt", [101, 114, 114]⟩],
              address := some "me@example.org" }],
        result := .exited 2 } :=
  ⟨by decide, by decide, by decide⟩

/-- C6 (prune failure is non-fatal): in the systemd variant the claim holds —
after a successful create and a prune exiting 3, the run still performs the
list step, sends one success-shaped notification whose attachments include
the prune output and error bytes under the distinct names `prune.out.txt`
and `prune.err.txt`, and exits 0. In the slurm variant the run does proceed
past the failed prune to the list step, but the final `send_borg_results`
raises `TypeError` (the same misplaced parenthesis as in C1), so no
notification is sent and the interpreter dies instead of exiting 0. -/
theorem claim6_prune_failure :
    pruneFailWorldSlurm.pruneProc.return_code = 3 ∧
    BorgSlurm.main pruneFailWorldSlurm =
      { events := [
          .subprocess (BorgSlurm.squeue_command BorgSlurm.job_name) none,
          .subprocess (BorgSlurm.borg_command ["/data"] ["/data/tmp"]
            BorgSlurm.job_name clock0 "myhost") (some "/tmp/repo"),
          .subprocess (BorgSlurm.prune_command BorgSlurm.job_name) (some "/tmp/repo"),
          .subprocess BorgSlurm.list_command none],
        result := .raised .typeError } ∧
    pruneFailWorldSystemd.pruneResult.return_code = 3 ∧
    BorgSystemd.main pruneFailWorldSystemd =
      { events := [
          .subprocess (BorgSystemd.borg_command ["/data"] ["/data/tmp"] clock0 "myhost")
            (some "/tmp/repo"),
          .subprocess BorgSystemd.prune_command (some "/tmp/repo"),
          .subprocess BorgSystemd.list_command none,
          .mailSent
            { subject := "[borg-systemd] Backup script finished at 2020-01-02_03:04:05",
              text := some ("Backups started at 2020-01-02_03:04:05 finished. "
                ++ "Logs are attached.\n\nCurrent backups:\narchives\n\n"),
              attachments := [⟨"borgbackup.out.txt", [111]⟩,
                ⟨"prune.out.txt", [112]⟩, ⟨"prune.err.txt", [113]⟩],
              address := some "me@example.org" }],
        result := .exited 0 } :=
  ⟨by decide, by decide, by decide, by decide⟩

/-- C3: in the scheduler variant, when the `squeue` probe reports an active
job (a non-empty job id on the second output line), the run sends exactly one
warning notification whose text names the job and its identifier, exits with
code 0, and never invokes the create, prune or list subprocesses. -/
theorem claim3_duplicate_run_guard (w : BorgSlurm.World)
    (env : List (String × String)) (bp be jobid : String)
    (h1 : set_borg_environment w.configRows BorgSlurm.allowed_variables
      w.initialEnv = .ok env)
    (h2 : envGet env "BORG_PATH" = some bp)
    (h3 : envGet env "BORG_EXCLUDE" = some be)
    (h4 : (pySplit '\n' w.squeueOut)[1]? = some jobid)
    (h5 : jobid ≠ "") :
    BorgSlurm.main w =
      { events := [
          .subprocess (BorgSlurm.squeue_command BorgSlurm.job_name) none,
          .mailSent
            { subject := "[Tom@SLURM] Backup WARNING: script still in squeue after two hours",
              text := some ("Job " ++ BorgSlurm.job_name ++ " found with job_id " ++ jobid),
              attachments := [],
              address := some w.host }],
        result := .exited 0 } := by
  have h5b : (jobid != "") = true := bne_iff_ne.2 h5
  simp only [BorgSlurm.main, BorgSlurm.check_for_borg_job, h1, h2, h3, h4, h5b, if_true]

theorem claim3_duplicate_run_guard_witness :
    BorgSlurm.main activeJobWorldSlurm =
      { events := [
          .subprocess (BorgSlurm.squeue_command BorgSlurm.job_name) none,
          .mailSent
            { subject := "[Tom@SLURM] Backup WARNING: script still in squeue after two hours",
              text := some ("Job " ++ BorgSlurm.job_name ++ " found with job_id " ++ "123"),
              attachments := [],
              address := some "myhost" }],
        result := .exited 0 } :=
  claim3_duplicate_run_guard activeJobWorldSlurm
    [("BORG_BASE", "/tmp/repo"), ("BORG_PATH", "/data"), ("BORG_EXCLUDE", "/data/tmp")]
    "/data" "/data/tmp" "123" rfl rfl rfl rfl (by decide)

/-- C7 counterexample: in the round-trip scenario the create invocation's
archive argument is `::<timestamp>_<hostname>` (borg repo::archive syntax),
not a bare `<timestamp>_<hostname>`: no element of the constructed command
equals the generated archive name itself. -/
theorem claim7_roundtrip_counterexample :
    (BorgSystemd.main roundtripWorld).events.head? = some (.subprocess
      (BorgSystemd.borg_command ["/data"] ["/data/tmp"] clock0 "myhost")
      (some "/tmp/repo")) ∧
    BorgSystemd.borg_command ["/data"] ["/data/tmp"] clock0 "myhost" =
      ["borg", "create", "--verbose", "--compression", "auto,lz4",
       "--lock-wait", "600", "--exclude", "/data/tmp",
       "::2020-01-02_03:04:05_myhost", "/data"] ∧
    BorgSystemd.generate_archive_name clock0 "myhost" = "2020-01-02_03:04:05_myhost" ∧
    "2020-01-02_03:04:05_myhost"
      ∉ BorgSystemd.borg_command ["/data"] ["/data/tmp"] clock0 "myhost" :=
  ⟨by decide, by decide, by decide, by decide⟩

/-- C7 (amended): for the round-trip config the first event of the run is the
create invocation, run with working directory `/tmp/repo`; its command
contains the adjacent pair `--exclude /data/tmp`, the archive argument
`::<timestamp>_<hostname>` and the source path `/data`. -/
theorem claim7_roundtrip_amended (w : BorgSystemd.World)
    (hc : w.configRows = roundtripRows) (he : w.initialEnv = []) :
    (BorgSystemd.main w).events.head? = some (.subprocess
      (BorgSystemd.borg_command ["/data"] ["/data/tmp"] w.clockArchive w.host)
      (some "/tmp/repo")) ∧
    (∃ l1 l2, BorgSystemd.borg_command ["/data"] ["/data/tmp"] w.clockArchive w.host
      = l1 ++ ["--exclude", "/data/tmp"] ++ l2) ∧
    ("::" ++ BorgSystemd.generate_archive_name w.clockArchive w.host)
      ∈ BorgSystemd.borg_command ["/data"] ["/data/tmp"] w.clockArchive w.host ∧
    "/data" ∈ BorgSystemd.borg_command ["/data"] ["/data/tmp"] w.clockArchive w.host := by
  have hcmd : BorgSystemd.borg_command ["/data"] ["/data/tmp"] w.clockArchive w.host =
      ["borg", "create", "--verbose", "--compression", "auto,lz4",
       "--lock-wait", "600", "--exclude", "/data/tmp",
       "::" ++ BorgSystemd.generate_archive_name w.clockArchive w.host, "/data"] := rfl
  refine ⟨?_, ⟨["borg", "create", "--verbose", "--compression", "auto,lz4",
      "--lock-wait", "600"],
      ["::" ++ BorgSystemd.generate_archive_name w.clockArchive w.host, "/data"], rfl⟩,
    by rw [hcmd]; simp, by rw [hcmd]; simp⟩
  have hset : set_borg_environment roundtripRows BorgSystemd.allowed_variables [] =
      .ok [("BORG_BASE", "/tmp/repo"), ("BORG_PATH", "/data"),
        ("BORG_EXCLUDE", "/data/tmp")] := rfl
  have hbp : envGet [("BORG_BASE", "/tmp/repo"), ("BORG_PATH", "/data"),
      ("BORG_EXCLUDE", "/data/tmp")] "BORG_PATH" = some "/data" := rfl
  have hbe : envGet [("BORG_BASE", "/tmp/repo"), ("BORG_PATH", "/data"),
      ("BORG_EXCLUDE", "/data/tmp")] "BORG_EXCLUDE" = some "/data/tmp" := rfl
  have hbb : envGet [("BORG_BASE", "/tmp/repo"), ("BORG_PATH", "/data"),
      ("BORG_EXCLUDE", "/data/tmp")] "BORG_BASE" = some "/tmp/repo" := rfl
  have hsp : pySplit ',' "/data" = ["/data"] := rfl
  have hse : pySplit ',' "/data/tmp" = ["/data/tmp"] := rfl
  simp only [BorgSystemd.main, hc, he, hset, hbp, hbe, hbb, hsp, hse]
  rcases hf : find_email_address w.forwardFile with e | addr <;> simp only [hf] <;>
    first
    | rfl
    | (split <;> rfl)

theorem claim7_roundtrip_amended_witness :
    (BorgSystemd.main roundtripWorld).events.head? = some (.subprocess
      (BorgSystemd.borg_command ["/data"] ["/data/tmp"] clock0 "myhost")
      (some "/tmp/repo")) ∧
    (∃ l1 l2, BorgSystemd.borg_command ["/data"] ["/data/tmp"] clock0 "myhost"
      = l1 ++ ["--exclude", "/data/tmp"] ++ l2) ∧
    ("::" ++ BorgSystemd.generate_archive_name clock0 "myhost")
      ∈ BorgSystemd.borg_command ["/data"] ["/data/tmp"] clock0 "myhost" ∧
    "/data" ∈ BorgSystemd.borg_command ["/data"] ["/data/tmp"] clock0 "myhost" :=
  claim7_roundtrip_amended roundtripWorld rfl rfl

/-- C4 (attachments iff non-empty): in the systemd variant the claim holds —
`send_borg_results` creates an attachment for a captured byte stream exactly
when that stream is present and non-empty, so no zero-byte attachment is
ever created. In the slurm variant the guard is
`len(borg_results['err_bytes'] > 0)`: the bytes-vs-int comparison raises
`TypeError` on every call (empty or not), so the function never produces
attachments at all. -/
theorem claim4_attachment_iff_nonempty :
    BorgSlurm.send_borg_results ⟨0, [], [], none, none⟩ "subject" none
      = .error .typeError ∧
    (∀ (r : BorgResults) (subject : String) (text addr : Option String),
      (¬ ∃ a ∈ (BorgSystemd.send_borg_results r subject text addr).attachments,
          a.content = []) ∧
      ((⟨"borgbackup.err.txt", r.err_bytes⟩ : Attachment)
          ∈ (BorgSystemd.send_borg_results r subject text addr).attachments
        ↔ r.err_bytes ≠ []) ∧
      ((⟨"borgbackup.out.txt", r.out_bytes⟩ : Attachment)
          ∈ (BorgSystemd.send_borg_results r subject text addr).attachments
        ↔ r.out_bytes ≠ []) ∧
      (∀ b : Bytes, (⟨"prune.out.txt", b⟩ : Attachment)
          ∈ (BorgSystemd.send_borg_results r subject text addr).attachments
        ↔ (r.prune_out = some b ∧ b ≠ [])) ∧
      (∀ b : Bytes, (⟨"prune.err.txt", b⟩ : Attachment)
          ∈ (BorgSystemd.send_borg_results r subject text addr).attachments
        ↔ (r.prune_err = some b ∧ b ≠ []))) := by
  constructor
  · rfl
  · rintro ⟨rc, ob, eb, po, pe⟩ subject text addr
    simp only [BorgSystemd.send_borg_results]
    rcases po with _ | b1 <;> rcases pe with _ | b2 <;>
      split_ifs with h1 h2 h3 h4 <;>
      simp_all [List.length_pos, Attachment.mk.injEq, eq_comm]
    all_goals aesop

theorem digitChar_inj_fin :
    ∀ a b : Fin 10, Nat.digitChar a.val = Nat.digitChar b.val → a = b := by
  decide

theorem digitChar_inj (a b : Nat) (ha : a < 10) (hb : b < 10)
    (h : Nat.digitChar a = Nat.digitChar b) : a = b :=
  congrArg Fin.val (digitChar_inj_fin ⟨a, ha⟩ ⟨b, hb⟩ h)

theorem isoformatChars_inj (sep : Char) (d1 d2 : DateTime)
    (hv1 : d1.valid) (hv2 : d2.valid)
    (hu1 : d1.microsecond = 0) (hu2 : d2.microsecond = 0)
    (h : isoformatChars sep d1 = isoformatChars sep d2) : d1 = d2 := by
  obtain ⟨y1, mo1, dd1, hh1, mi1, s1, u1⟩ := d1
  obtain ⟨y2, mo2, dd2, hh2, mi2, s2, u2⟩ := d2
  simp only [DateTime.valid] at hv1 hv2
  obtain ⟨b1, b2, b3, b4, b5, b6, b7, b8, b9, b10⟩ := hv1
  obtain ⟨c1, c2, c3, c4, c5, c6, c7, c8, c9, c10⟩ := hv2
  simp only at hu1 hu2
  subst hu1
  subst hu2
  simp only [isoformatChars, pad4, pad2, List.cons_append, List.nil_append,
    List.append_nil, if_pos, List.cons.injEq, eq_self_iff_true, true_and,
    and_true] at h
  obtain ⟨ey1, ey2, ey3, ey4, emo1, emo2, edd1, edd2, ehh1, ehh2,
    emi1, emi2, es1, es2⟩ := h
  have hy1 := digitChar_inj _ _ (by omega) (by omega) ey1
  have hy2 := digitChar_inj _ _ (by omega) (by omega) ey2
  have hy3 := digitChar_inj _ _ (by omega) (by omega) ey3
  have hy4 := digitChar_inj _ _ (by omega) (by omega) ey4
  have hmo1 := digitChar_inj _ _ (by omega) (by omega) emo1
  have hmo2 := digitChar_inj _ _ (by omega) (by omega) emo2
  have hdd1 := digitChar_inj _ _ (by omega) (by omega) edd1
  have hdd2 := digitChar_inj _ _ (by omega) (by omega) edd2
  have hhh1 := digitChar_inj _ _ (by omega) (by omega) ehh1
  have hhh2 := digitChar_inj _ _ (by omega) (by omega) ehh2
  have hmi1 := digitChar_inj _ _ (by omega) (by omega) emi1
  have hmi2 := digitChar_inj _ _ (by omega) (by omega) emi2
  have hs1 := digitChar_inj _ _ (by omega) (by omega) es1
  have hs2 := digitChar_inj _ _ (by omega) (by omega) es2
  simp only [DateTime.mk.injEq]
  exact ⟨by omega, by omega, by omega, by omega, by omega, by omega, trivial⟩

theorem valid_truncate_slurm (d : DateTime) (h : d.valid) :
    ({ d with second := 0, microsecond := 0 } : DateTime).valid := by
  obtain ⟨y, mo, dd, hh, mi, s, u⟩ := d
  simp only [DateTime.valid] at h ⊢
  omega

theorem valid_truncate_systemd (d : DateTime) (h : d.valid) :
    ({ d with microsecond := 0 } : DateTime).valid := by
  obtain ⟨y, mo, dd, hh, mi, s, u⟩ := d
  simp only [DateTime.valid] at h ⊢
  omega

theorem now_slurm_congr (d1 d2 : DateTime) (h : minuteKey d1 = minuteKey d2) :
    BorgSlurm.now d1 = BorgSlurm.now d2 := by
  obtain ⟨y1, mo1, dd1, hh1, mi1, s1, u1⟩ := d1
  obtain ⟨y2, mo2, dd2, hh2, mi2, s2, u2⟩ := d2
  simp only [minuteKey, Prod.mk.injEq] at h
  obtain ⟨e1, e2, e3, e4, e5⟩ := h
  subst e1; subst e2; subst e3; subst e4; subst e5
  rfl

theorem now_systemd_congr (d1 d2 : DateTime) (h : secondKey d1 = secondKey d2) :
    BorgSystemd.now d1 = BorgSystemd.now d2 := by
  obtain ⟨y1, mo1, dd1, hh1, mi1, s1, u1⟩ := d1
  obtain ⟨y2, mo2, dd2, hh2, mi2, s2, u2⟩ := d2
  simp only [secondKey, minuteKey, Prod.mk.injEq] at h
  obtain ⟨⟨e1, e2, e3, e4, e5⟩, e6⟩ := h
  subst e1; subst e2; subst e3; subst e4; subst e5; subst e6
  rfl

theorem generate_archive_name_slurm_inj (d1 d2 : DateTime) (host : String)
    (hv1 : d1.valid) (hv2 : d2.valid)
    (h : BorgSlurm.generate_archive_name d1 host
      = BorgSlurm.generate_archive_name d2 host) :
    minuteKey d1 = minuteKey d2 := by
  have hd := congrArg String.data h
  simp only [BorgSlurm.generate_archive_name, String.data_append,
    List.append_assoc, List.singleton_append] at hd
  have hcancel := List.append_cancel_right hd
  have heq := isoformatChars_inj '_'
    ({ d1 with second := 0, microsecond := 0 })
    ({ d2 with second := 0, microsecond := 0 })
    (valid_truncate_slurm d1 hv1) (valid_truncate_slurm d2 hv2) rfl rfl hcancel
  have h5 : minuteKey ({ d1 with second := 0, microsecond := 0 } : DateTime)
      = minuteKey ({ d2 with second := 0, microsecond := 0 }) := congrArg minuteKey heq
  exact h5

theorem generate_archive_name_systemd_inj (d1 d2 : DateTime) (host : String)
    (hv1 : d1.valid) (hv2 : d2.valid)
    (h : BorgSystemd.generate_archive_name d1 host
      = BorgSystemd.generate_archive_name d2 host) :
    secondKey d1 = secondKey d2 := by
  have hd := congrArg String.data h
  simp only [BorgSystemd.generate_archive_name, String.data_append,
    List.append_assoc, List.singleton_append] at hd
  have hcancel := List.append_cancel_right hd
  have heq := isoformatChars_inj '_'
    ({ d1 with microsecond := 0 }) ({ d2 with microsecond := 0 })
    (valid_truncate_systemd d1 hv1) (valid_truncate_systemd d2 hv2) rfl rfl hcancel
  have h5 : secondKey ({ d1 with microsecond := 0 } : DateTime)
      = secondKey ({ d2 with microsecond := 0 }) := congrArg secondKey heq
  exact h5

/-- C5 counterexample: the systemd-variant `now()` only zeroes microseconds,
so the generated archive name keeps the seconds of the clock reading — two
readings in the same minute (second 0 and second 30) produce different
names, and the seconds component `:30` appears in the name, contradicting
"no seconds component (minute resolution)". -/
theorem claim5_minute_resolution_counterexample :
    minuteKey ⟨2020, 1, 2, 3, 4, 0, 0⟩ = minuteKey ⟨2020, 1, 2, 3, 4, 30, 0⟩ ∧
    BorgSystemd.generate_archive_name ⟨2020, 1, 2, 3, 4, 0, 0⟩ "myhost"
      ≠ BorgSystemd.generate_archive_name ⟨2020, 1, 2, 3, 4, 30, 0⟩ "myhost" ∧
    BorgSystemd.generate_archive_name ⟨2020, 1, 2, 3, 4, 30, 0⟩ "myhost"
      = "2020-01-02_03:04:30_myhost" :=
  ⟨by decide, by decide, by decide⟩

/-- C5 (amended): archive-name generation is a function of the clock reading
and host name. In the slurm variant the name depends only on the
minute-resolution truncation of the reading (its seconds field is always
rendered `00` and no microsecond fraction ever appears), and two valid
readings with different minute truncations — in particular, readings at
least one minute apart — give different names. In the systemd variant the
name depends on (and is injective in) the second-resolution truncation:
microseconds never appear, but seconds do, so its resolution is one second;
readings at least one minute apart still give different names. -/
theorem claim5_archive_name_amended :
    (∀ d1 d2 host, minuteKey d1 = minuteKey d2 →
      BorgSlurm.generate_archive_name d1 host
        = BorgSlurm.generate_archive_name d2 host) ∧
    (∀ d, ∃ p, (BorgSlurm.now d).data = p ++ [':', '0', '0']) ∧
    (∀ d1 d2 host, d1.valid → d2.valid → minuteKey d1 ≠ minuteKey d2 →
      BorgSlurm.generate_archive_name d1 host
        ≠ BorgSlurm.generate_archive_name d2 host) ∧
    (∀ d1 d2 host, secondKey d1 = secondKey d2 →
      BorgSystemd.generate_archive_name d1 host
        = BorgSystemd.generate_archive_name d2 host) ∧
    (∀ d1 d2 host, d1.valid → d2.valid → secondKey d1 ≠ secondKey d2 →
      BorgSystemd.generate_archive_name d1 host
        ≠ BorgSystemd.generate_archive_name d2 host) ∧
    (∀ d1 d2 host, d1.valid → d2.valid → minuteKey d1 ≠ minuteKey d2 →
      BorgSystemd.generate_archive_name d1 host
        ≠ BorgSystemd.generate_archive_name d2 host) := by
  refine ⟨?_, ?_, ?_, ?_, ?_, ?_⟩
  · intro d1 d2 host h
    unfold BorgSlurm.generate_archive_name
    rw [now_slurm_congr d1 d2 h]
  · intro d
    refine ⟨pad4 d.year ++ '-' :: (pad2 d.month ++ '-' :: (pad2 d.day ++ '_' ::
      (pad2 d.hour ++ ':' :: pad2 d.minute))), ?_⟩
    show isoformatChars '_' ({ d with second := 0, microsecond := 0 }) = _
    simp [isoformatChars, pad2, List.append_assoc,
      show Nat.digitChar 0 = '0' from rfl]
  · intro d1 d2 host hv1 hv2 hne heq
    exact hne (generate_archive_name_slurm_inj d1 d2 host hv1 hv2 heq)
  · intro d1 d2 host h
    unfold BorgSystemd.generate_archive_name
    rw [now_systemd_congr d1 d2 h]
  · intro d1 d2 host hv1 hv2 hne heq
    exact hne (generate_archive_name_systemd_inj d1 d2 host hv1 hv2 heq)
  · intro d1 d2 host hv1 hv2 hne heq
    exact hne (congrArg Prod.fst
      (generate_archive_name_systemd_inj d1 d2 host hv1 hv2 heq))

theorem claim5_archive_name_amended_witness :
    BorgSlurm.generate_archive_name ⟨2020, 1, 2, 3, 4, 5, 6⟩ "h"
      = BorgSlurm.generate_archive_name ⟨2020, 1, 2, 3, 4, 50, 0⟩ "h" ∧
    BorgSlurm.generate_archive_name ⟨2020, 1, 2, 3, 4, 0, 0⟩ "h"
      ≠ BorgSlurm.generate_archive_name ⟨2020, 1, 2, 3, 5, 0, 0⟩ "h" ∧
    BorgSystemd.generate_archive_name ⟨2020, 1, 2, 3, 4, 0, 0⟩ "h"
      ≠ BorgSystemd.generate_archive_name ⟨2020, 1, 2, 3, 4, 1, 0⟩ "h" :=
  ⟨claim5_archive_name_amended.1 _ _ "h" (by decide),
    claim5_archive_name_amended.2.2.1 _ _ "h" (by decide) (by decide) (by decide),
    claim5_archive_name_amended.2.2.2.2.1 _ _ "h" (by decide) (by decide) (by decide)⟩
